import Mathlib

/-!
Shallow embedding of the request-processing core of the facts API
(src/app.py, src/models.py): the favorites manager, the random-fact
selector, paginated fact listing, login, and the usage-tracking wrapper.
Machine state is the relational store: lists of Fact, Favorite and User
rows.  Each HTTP handler becomes a pure function from the store (plus the
request parameters) to a typed result and the successor store; the HTTP
status of each typed result is the literal the handler returns in app.py.
-/

namespace FactsApi

/-- A row of the `fact` table (models.py, class Fact): integer primary key,
content text, category label, soft-delete flag and a view counter stored as
a database integer, hence modelled as `Int` with default 0. -/
structure Fact where
  id : Nat
  content : String
  category : String
  is_active : Bool
  view_count : Int
deriving Repr, DecidableEq

/-- A row of the `favorite` table (models.py, class Favorite): the join
entity between a user and a fact.  The surrogate primary key and timestamp
are irrelevant to the claims and omitted; the unique constraint on
(user_id, fact_id) is enforced at commit time in `addFavorite`. -/
structure Favorite where
  user_id : Nat
  fact_id : Nat
deriving Repr, DecidableEq

/-- A row of the `user` table (models.py, class User).  The bcrypt hash is
an opaque string; password verification is a parameter of `login`. -/
structure User where
  id : Nat
  username : String
  password_hash : String
  is_active : Bool
deriving Repr, DecidableEq

/-- The relational store as seen by the fact/favorite handlers. -/
structure DbState where
  facts : List Fact
  favorites : List Favorite
deriving Repr, DecidableEq

/-- `Fact.query.get(fact_id)`: primary-key lookup. -/
def findFact (st : DbState) (fid : Nat) : Option Fact :=
  st.facts.find? (fun f => f.id == fid)

/-- `Favorite.query.filter_by(user_id=..., fact_id=...).first()` viewed as a
Boolean existence check. -/
def favExists (favs : List Favorite) (uid fid : Nat) : Bool :=
  favs.any (fun fv => fv.user_id == uid && fv.fact_id == fid)

/-- Outcome of the POST branch of `manage_favorites` (app.py lines 258-278). -/
inductive AddResult where
  | missingFactId
  | factNotFound
  | alreadyInFavorites
  | created
  | failedToAdd
deriving Repr, DecidableEq

/-- The HTTP status each POST outcome is returned with in app.py. -/
def addStatus : AddResult → Nat
  | .missingFactId => 400
  | .factNotFound => 404
  | .alreadyInFavorites => 400
  | .created => 201
  | .failedToAdd => 500

/-- POST /favorites (app.py lines 258-278).  `racing` is the list of
favorite rows committed by concurrent transactions between this request's
existence check (which reads `st.favorites`) and its own commit; the
commit-time table is `st.favorites ++ racing` and the insert succeeds iff
it does not violate the unique (user_id, fact_id) constraint there.  On a
constraint violation the bare `except` rolls back and returns the
generic failure, HTTP 500. -/
def addFavorite (st : DbState) (uid : Nat) (fact_id : Option Nat)
    (racing : List Favorite) : AddResult × DbState :=
  match fact_id with
  | none => (.missingFactId, st)
  | some fid =>
    match findFact st fid with
    | none => (.factNotFound, st)
    | some fact =>
      if fact.is_active = false then (.factNotFound, st)
      else if favExists st.favorites uid fid then (.alreadyInFavorites, st)
      else if favExists (st.favorites ++ racing) uid fid then
        (.failedToAdd, { st with favorites := st.favorites ++ racing })
      else
        (.created,
         { st with favorites :=
             (st.favorites ++ racing) ++ [{ user_id := uid, fact_id := fid }] })

/-- Outcome of the DELETE branch of `manage_favorites` (app.py lines 280-295). -/
inductive RemoveResult where
  | missingFactId
  | notInFavorites
  | removed
deriving Repr, DecidableEq

/-- The HTTP status each DELETE outcome is returned with in app.py. -/
def removeStatus : RemoveResult → Nat
  | .missingFactId => 400
  | .notInFavorites => 404
  | .removed => 200

/-- DELETE /favorites (app.py lines 280-295): find the first matching
(user, fact) row; absent yields 404, otherwise that row is deleted and the
commit of a plain single-row delete succeeds. -/
def removeFavorite (st : DbState) (uid : Nat) (fact_id : Option Nat) :
    RemoveResult × DbState :=
  match fact_id with
  | none => (.missingFactId, st)
  | some fid =>
    match st.favorites.find? (fun fv => fv.user_id == uid && fv.fact_id == fid) with
    | none => (.notInFavorites, st)
    | some _ =>
      (.removed,
        { st with favorites :=
            st.favorites.eraseP (fun fv => fv.user_id == uid && fv.fact_id == fid) })

/-- GET /favorites (app.py lines 251-256): join Favorite with Fact on the
fact id, keep the caller's rows whose fact is active, and return the facts. -/
def listFavorites (st : DbState) (uid : Nat) : List Fact :=
  (st.favorites.filter (fun fv => fv.user_id == uid)).filterMap
    (fun fv => (st.facts.find? (fun f => f.id == fv.fact_id)).bind
      (fun f => if f.is_active then some f else none))

/-- The active-facts query with the optional category filter shared by
GET /facts and GET /facts/random (app.py lines 201-203 and 221-224):
`filter_by(is_active=True)` always, and `filter_by(category=...)` only when
the query parameter is present and truthy (a present empty string is falsy
in Python, so it applies no filter). -/
def activeFacts (st : DbState) (category : Option String) : List Fact :=
  st.facts.filter (fun f =>
    f.is_active && (match category with
      | none => true
      | some c => c == "" || f.category == c))

/-- The JSON payload of GET /facts (app.py lines 194-215): the page of
facts plus the pagination metadata the handler reports.  `paginate` with
`error_out=False` yields the slice at offset (page-1)*per_page of length
at most per_page, the ceiling page count and the total row count. -/
structure FactsPage where
  facts : List Fact
  page : Nat
  pages : Nat
  per_page : Nat
  total : Nat
deriving Repr, DecidableEq

/-- GET /facts (app.py lines 194-215).  The effective page size is
`min(per_page, 50)` (line 198); the handler has a single return path,
a bare `jsonify`, so the HTTP status is always 200. -/
def getFacts (st : DbState) (page per_page_req : Nat) (category : Option String) :
    FactsPage × Nat :=
  let per_page := min per_page_req 50
  let matching := activeFacts st category
  let items := (matching.drop ((page - 1) * per_page)).take per_page
  ({ facts := items
     page := page
     pages := (matching.length + per_page - 1) / per_page
     per_page := per_page
     total := matching.length }, 200)

/-- Outcome of GET /facts/random (app.py lines 217-237): either the
404 body `No facts found` or the picked fact as serialised after its
in-memory increment. -/
inductive RandomResult where
  | noFactsFound
  | found : Fact → RandomResult
deriving Repr, DecidableEq

/-- The HTTP status each GET /facts/random outcome is returned with. -/
def randomStatus : RandomResult → Nat
  | .noFactsFound => 404
  | .found _ => 200

/-- `fact.view_count += 1` followed by commit: the row with the picked
primary key has its counter incremented in the store. -/
def bumpView (facts : List Fact) (fid : Nat) : List Fact :=
  facts.map (fun g => if g.id == fid then { g with view_count := g.view_count + 1 } else g)

/-- GET /facts/random (app.py lines 217-237).  `order_by(random()).first()`
returns none exactly when no active fact matches; otherwise the database
picks some row of the filtered set, modelled by the random seed `r`
selecting index `r % length`.  On success the picked fact's counter is
incremented and committed before the response is built. -/
def randomFact (st : DbState) (category : Option String) (r : Nat) :
    RandomResult × DbState :=
  match (activeFacts st category)[r % (activeFacts st category).length]? with
  | none => (.noFactsFound, st)
  | some fact =>
      (.found { fact with view_count := fact.view_count + 1 },
       { st with facts := bumpView st.facts fact.id })

/-- The view counter of the fact with primary key `fid` as a query would
read it back; 0 when no such row exists. -/
def viewCount (st : DbState) (fid : Nat) : Int :=
  match st.facts.find? (fun f => f.id == fid) with
  | some f => f.view_count
  | none => 0

/-- Outcome of POST /login (app.py lines 177-192). `success` carries the
identity the issued token encodes: `create_access_token(identity=user.id)`. -/
inductive LoginResult where
  | missingFields
  | success : Nat → LoginResult
  | invalidCredentials
deriving Repr, DecidableEq

/-- The HTTP status each login outcome is returned with in app.py. -/
def loginStatus : LoginResult → Nat
  | .missingFields => 400
  | .success _ => 200
  | .invalidCredentials => 401

/-- POST /login (app.py lines 177-192).  `checkpw password hash` stands for
`bcrypt.checkpw` (models.py line 21), an external primitive, passed in as a
parameter.  The handler looks the user up by exact username, and issues a
token only when the user exists, the password verifies and the account is
active; every other combination falls through to the 401 return. -/
def login (checkpw : String → String → Bool) (users : List User)
    (data : Option (String × String)) : LoginResult :=
  match data with
  | none => .missingFields
  | some (username, password) =>
    match users.find? (fun u => u.username == username) with
    | some u =>
        if checkpw password u.password_hash && u.is_active then .success u.id
        else .invalidCredentials
    | none => .invalidCredentials

/-- The Python value a handler body returns, as `track_usage`
(app.py lines 31-70) sees it: either a bare `jsonify(body)` — a Flask
Response object carrying `status_code` 200 — or a `(jsonify(body), code)`
tuple, which is a plain tuple with no `status_code` attribute.  Every
return statement in app.py has one of these two shapes. -/
inductive HandlerReturn where
  | jsonifyOnly : String → HandlerReturn
  | jsonifyWith : String → Nat → HandlerReturn
deriving Repr, DecidableEq

/-- `getattr(response, 'status_code')` guarded by `hasattr`: a Response
object exposes its status, a tuple exposes nothing. -/
def statusCodeAttr : HandlerReturn → Option Nat
  | .jsonifyOnly _ => some 200
  | .jsonifyWith _ _ => none

/-- The HTTP status the WSGI layer actually sends for a handler return
value: a bare Response is 200, a `(body, code)` tuple is `code`. -/
def actualStatus : HandlerReturn → Nat
  | .jsonifyOnly _ => 200
  | .jsonifyWith _ c => c

/-- What `track_usage` produces for one request: the `response_code`
written into the ApiUsage row, and the status and body the caller sees. -/
structure TrackedResponse where
  recorded_code : Nat
  visible_code : Nat
  visible_body : String
deriving Repr, DecidableEq

/-- The body text of a handler return value. -/
def bodyOf : HandlerReturn → String
  | .jsonifyOnly b => b
  | .jsonifyWith b _ => b

/-- app.py lines 42-49 and 63-69 of `track_usage`: run the handler; start
from `response_code = 200` and overwrite it with `response.status_code`
only when that attribute exists (it does not on a tuple); an unhandled
exception — `.error msg`, where `msg` is the internal exception detail —
records 500 and substitutes the constant generic body. -/
def trackUsage (outcome : Except String HandlerReturn) : TrackedResponse :=
  match outcome with
  | .ok r =>
      let code := match statusCodeAttr r with
        | some c => c
        | none => 200
      { recorded_code := code, visible_code := actualStatus r, visible_body := bodyOf r }
  | .error _ =>
      { recorded_code := 500, visible_code := 500, visible_body := "Internal server error" }

/-- A default-valued fact row as `seed_data` inserts them
(app.py lines 92-94, models.py lines 32-38): active, view counter 0. -/
def mkFact (id : Nat) (content category : String) : Fact :=
  { id := id, content := content, category := category,
    is_active := true, view_count := 0 }

/-- The operations of the system that read or write the fact/favorite
store: a random pick, a favorite add (with its race parameter), a favorite
remove, and a seed insert. -/
inductive Op where
  | pickOp : Option String → Nat → Op
  | addFavOp : Nat → Option Nat → List Favorite → Op
  | removeFavOp : Nat → Option Nat → Op
  | seedFactOp : Nat → String → String → Op
deriving Repr, DecidableEq

/-- The successor store of each operation. -/
def applyOp (op : Op) (st : DbState) : DbState :=
  match op with
  | .pickOp cat r => (randomFact st cat r).2
  | .addFavOp uid fid racing => (addFavorite st uid fid racing).2
  | .removeFavOp uid fid => (removeFavorite st uid fid).2
  | .seedFactOp id content cat => { st with facts := st.facts ++ [mkFact id content cat] }

/-- Claim C1: the spec requires that an insert rejected by the storage
uniqueness constraint in the race window be surfaced as AlreadyExists
(HTTP 400), never as a generic 500.  Evaluating `addFavorite` at a state
with one active fact, no favorites, and a racing (7, 1) row committed
between the existence check and the insert: the bare `except` branch of
app.py line 276 surfaces the constraint violation as `failedToAdd`,
HTTP 500, not as `alreadyInFavorites`, HTTP 400. -/
theorem C1_race_surfaces_500 :
    addFavorite (⟨[mkFact 1 "a" "animals"], []⟩ : DbState) 7 (some 1)
        [{ user_id := 7, fact_id := 1 }]
      = (.failedToAdd, ⟨[mkFact 1 "a" "animals"], [{ user_id := 7, fact_id := 1 }]⟩)
    ∧ addStatus .failedToAdd = 500
    ∧ addStatus .alreadyInFavorites = 400
    ∧ ¬ addStatus .failedToAdd = 400 := by
  decide

/-- Claim C4: the spec says the ApiUsage row carries the status code the
handler actually produced.  Evaluating `trackUsage` on the return value of
a handler that produced a 404 — a `(jsonify(...), 404)` tuple, the shape of
every non-200 return in app.py — the recorded code is 200, because a tuple
has no `status_code` attribute (app.py lines 44-46), while the caller
receives 404.  The unhandled-exception half of the claim does hold: the
recorded code is 500 and the caller gets the constant generic body. -/
theorem C4_tuple_status_recorded_as_200 :
    (trackUsage (.ok (.jsonifyWith "No facts found" 404))).recorded_code = 200
    ∧ (trackUsage (.ok (.jsonifyWith "No facts found" 404))).visible_code = 404
    ∧ ¬ (trackUsage (.ok (.jsonifyWith "No facts found" 404))).recorded_code = 404
    ∧ (trackUsage (.error "ZeroDivisionError: division by zero")).recorded_code = 500
    ∧ (trackUsage (.error "ZeroDivisionError: division by zero")).visible_code = 500
    ∧ (trackUsage (.error "ZeroDivisionError: division by zero")).visible_body
        = "Internal server error" := by
  decide

/-- Claim C10: GET /facts caps the effective page size at 50: when the
caller requests more than 50 per page, at most 50 items come back and the
reported per_page is 50. -/
theorem C10_per_page_capped (st : DbState) (page s : Nat) (cat : Option String)
    (h : 50 < s) :
    (getFacts st page s cat).1.per_page = 50
    ∧ (getFacts st page s cat).1.facts.length ≤ 50 := by
  refine ⟨?_, ?_⟩
  · simp [getFacts, Nat.min_eq_right (Nat.le_of_lt h)]
  · have h1 := List.length_take_le (min s 50)
      ((activeFacts st cat).drop ((page - 1) * min s 50))
    have h2 := le_trans h1 (Nat.min_le_right s 50)
    simp only [getFacts]
    exact h2

/-- Witness for C10 at a concrete request asking for 100 per page. -/
theorem C10_per_page_capped_witness :
    (getFacts (⟨[], []⟩ : DbState) 1 100 none).1.per_page = 50
    ∧ (getFacts (⟨[], []⟩ : DbState) 1 100 none).1.facts.length ≤ 50 :=
  C10_per_page_capped (⟨[], []⟩ : DbState) 1 100 none (by decide)

/-- Claim C7: GET /facts with page p and size s returns at most s items,
and a page beyond the last (the offset at or past the total) yields an
empty list with HTTP 200, not an error. -/
theorem C7_pagination (st : DbState) (page s : Nat) (cat : Option String) :
    (getFacts st page s cat).1.facts.length ≤ s
    ∧ ((getFacts st page s cat).1.total ≤ (page - 1) * min s 50 →
        (getFacts st page s cat).1.facts = [] ∧ (getFacts st page s cat).2 = 200) := by
  refine ⟨?_, ?_⟩
  · have h1 := List.length_take_le (min s 50)
      ((activeFacts st cat).drop ((page - 1) * min s 50))
    have h2 := le_trans h1 (Nat.min_le_left s 50)
    simp only [getFacts]
    exact h2
  · intro htot
    have hlen : (activeFacts st cat).length ≤ (page - 1) * min s 50 := by
      simpa [getFacts] using htot
    have hdrop : (activeFacts st cat).drop ((page - 1) * min s 50) = [] :=
      List.drop_eq_nil_of_le hlen
    constructor
    · simp [getFacts, hdrop]
    · simp [getFacts]

/-- Witness for C7 at a concrete store with one active fact, page 5 of
size 10 being beyond the last page. -/
theorem C7_pagination_witness :
    (getFacts (⟨[mkFact 1 "a" "animals"], []⟩ : DbState) 5 10 none).1.facts = []
    ∧ (getFacts (⟨[mkFact 1 "a" "animals"], []⟩ : DbState) 5 10 none).2 = 200 :=
  (C7_pagination (⟨[mkFact 1 "a" "animals"], []⟩ : DbState) 5 10 none).2 (by decide)

/-- Claim C8: GET /favorites only ever returns active facts: every element
of `listFavorites` has its soft-delete flag set to active, because the join
filters on `Fact.is_active == True` (app.py line 254). -/
theorem C8_list_only_active (st : DbState) (uid : Nat) (f : Fact)
    (h : f ∈ listFavorites st uid) : f.is_active = true := by
  simp only [listFavorites, List.mem_filterMap, List.mem_filter] at h
  obtain ⟨fv, _, hsome⟩ := h
  cases hfind : st.facts.find? (fun g => g.id == fv.fact_id) with
  | none => rw [hfind] at hsome; simp at hsome
  | some g =>
      rw [hfind] at hsome
      by_cases hg : g.is_active
      · simp [hg] at hsome
        simpa [← hsome] using hg
      · simp [hg] at hsome

/-- Witness for C8: a concrete store with one favorited active fact. -/
theorem C8_list_only_active_witness :
    (mkFact 1 "a" "animals").is_active = true :=
  C8_list_only_active
    (⟨[mkFact 1 "a" "animals"], [{ user_id := 4, fact_id := 1 }]⟩ : DbState) 4
    (mkFact 1 "a" "animals") (by decide)

/-- Claim C2: with no concurrent writer (`racing = []`), POST /favorites
returns 404 when the fact is absent or inactive, 400 when the (user, fact)
row already exists, and otherwise appends exactly one Favorite row and
returns 201, exactly the branch order of app.py lines 263-275. -/
theorem C2_add_semantics (st : DbState) (uid fid : Nat) :
    ((findFact st fid = none ∨ ∃ f, findFact st fid = some f ∧ f.is_active = false) →
      addFavorite st uid (some fid) [] = (.factNotFound, st)
      ∧ addStatus .factNotFound = 404)
    ∧ (∀ f, findFact st fid = some f → f.is_active = true →
        favExists st.favorites uid fid = true →
        addFavorite st uid (some fid) [] = (.alreadyInFavorites, st)
        ∧ addStatus .alreadyInFavorites = 400)
    ∧ (∀ f, findFact st fid = some f → f.is_active = true →
        favExists st.favorites uid fid = false →
        addFavorite st uid (some fid) []
          = (.created,
             { st with favorites := st.favorites ++ [{ user_id := uid, fact_id := fid }] })
        ∧ addStatus .created = 201) := by
  refine ⟨?_, ?_, ?_⟩
  · rintro (hnone | ⟨f, hf, hact⟩)
    · simp [addFavorite, hnone, addStatus]
    · simp [addFavorite, hf, hact, addStatus]
  · intro f hf hact hex
    simp [addFavorite, hf, hact, hex, addStatus]
  · intro f hf hact hex
    simp [addFavorite, hf, hact, hex, addStatus]

/-- Witness for C2 at a concrete store: adding fact 1 for user 4 succeeds
with 201 and inserts exactly the one row. -/
theorem C2_add_semantics_witness :
    addFavorite (⟨[mkFact 1 "a" "animals"], []⟩ : DbState) 4 (some 1) []
      = (.created,
         { (⟨[mkFact 1 "a" "animals"], []⟩ : DbState) with
             favorites := (⟨[mkFact 1 "a" "animals"], []⟩ : DbState).favorites
               ++ [{ user_id := 4, fact_id := 1 }] })
    ∧ addStatus .created = 201 :=
  (C2_add_semantics (⟨[mkFact 1 "a" "animals"], []⟩ : DbState) 4 1).2.2
    (mkFact 1 "a" "animals") (by decide) (by decide) (by decide)

/-- Claim C5: DELETE /favorites returns 404 when no (user, fact) row
exists and otherwise deletes that row; after a successful add, the first
remove succeeds and returns the store to its pre-add contents, and a
remove without the row present leaves the store unchanged with 404 —
hence every subsequent remove keeps failing with 404. -/
theorem C5_remove_semantics (st : DbState) (uid fid : Nat) :
    (favExists st.favorites uid fid = false →
      removeFavorite st uid (some fid) = (.notInFavorites, st)
      ∧ removeStatus .notInFavorites = 404)
    ∧ (favExists st.favorites uid fid = true →
      (removeFavorite st uid (some fid)).1 = .removed
      ∧ (removeFavorite st uid (some fid)).2.favorites
          = st.favorites.eraseP (fun fv => fv.user_id == uid && fv.fact_id == fid))
    ∧ (∀ f, findFact st fid = some f → f.is_active = true →
        favExists st.favorites uid fid = false →
        (addFavorite st uid (some fid) []).1 = .created
        ∧ removeFavorite (addFavorite st uid (some fid) []).2 uid (some fid)
            = (.removed, st)
        ∧ removeFavorite st uid (some fid) = (.notInFavorites, st)) := by
  have hnotmem : favExists st.favorites uid fid = false →
      ∀ fv ∈ st.favorites, ¬ (fv.user_id == uid && fv.fact_id == fid) = true := by
    intro hex
    exact List.any_eq_false.mp hex
  refine ⟨?_, ?_, ?_⟩
  · intro hex
    have hfind : st.favorites.find?
        (fun fv => fv.user_id == uid && fv.fact_id == fid) = none :=
      List.find?_eq_none.mpr (hnotmem hex)
    simp [removeFavorite, hfind, removeStatus]
  · intro hex
    obtain ⟨x, hx, hpx⟩ := List.any_eq_true.mp hex
    have hsome : (st.favorites.find?
        (fun fv => fv.user_id == uid && fv.fact_id == fid)).isSome := by
      rw [List.find?_isSome]
      exact ⟨x, hx, hpx⟩
    obtain ⟨y, hy⟩ := Option.isSome_iff_exists.mp hsome
    simp [removeFavorite, hy]
  · intro f hf hact hex
    have hfind : st.favorites.find?
        (fun fv => fv.user_id == uid && fv.fact_id == fid) = none :=
      List.find?_eq_none.mpr (hnotmem hex)
    have hadd : addFavorite st uid (some fid) []
        = (.created,
           { st with favorites := st.favorites ++ [{ user_id := uid, fact_id := fid }] }) := by
      simp [addFavorite, hf, hact, hex]
    refine ⟨by rw [hadd], ?_, ?_⟩
    · rw [hadd]
      have hrow : ((⟨uid, fid⟩ : Favorite).user_id == uid
          && (⟨uid, fid⟩ : Favorite).fact_id == fid) = true := by simp
      have hfind2 : (st.favorites ++ [(⟨uid, fid⟩ : Favorite)]).find?
          (fun fv => fv.user_id == uid && fv.fact_id == fid)
          = some (⟨uid, fid⟩ : Favorite) := by
        rw [List.find?_append, hfind]
        simp
      have herase : (st.favorites ++ [(⟨uid, fid⟩ : Favorite)]).eraseP
          (fun fv => fv.user_id == uid && fv.fact_id == fid) = st.favorites := by
        rw [List.eraseP_append_right _ (hnotmem hex)]
        simp
      simp [removeFavorite, hfind2, herase]
    · simp [removeFavorite, hfind, removeStatus]

/-- Witness for C5: at a concrete store, add then remove round-trips and a
second remove reports 404. -/
theorem C5_remove_semantics_witness :
    (addFavorite (⟨[mkFact 1 "a" "animals"], []⟩ : DbState) 4 (some 1) []).1 = .created
    ∧ removeFavorite
        (addFavorite (⟨[mkFact 1 "a" "animals"], []⟩ : DbState) 4 (some 1) []).2 4 (some 1)
        = (.removed, (⟨[mkFact 1 "a" "animals"], []⟩ : DbState))
    ∧ removeFavorite (⟨[mkFact 1 "a" "animals"], []⟩ : DbState) 4 (some 1)
        = (.notInFavorites, (⟨[mkFact 1 "a" "animals"], []⟩ : DbState)) :=
  (C5_remove_semantics (⟨[mkFact 1 "a" "animals"], []⟩ : DbState) 4 1).2.2
    (mkFact 1 "a" "animals") (by decide) (by decide) (by decide)

/-- Claim C6: with the schema's unique-username constraint in force,
POST /login returns 401 InvalidCredentials exactly when no user with the
given username exists, or the password fails verification, or the account
is inactive; and when an active user matches and the password verifies,
the issued token encodes that user's id (app.py lines 186-192). -/
theorem C6_login_semantics (checkpw : String → String → Bool) (users : List User)
    (un pw : String) (hnd : (users.map User.username).Nodup) :
    (login checkpw users (some (un, pw)) = .invalidCredentials ↔
      ¬ ∃ u, u ∈ users ∧ u.username = un ∧ checkpw pw u.password_hash = true
        ∧ u.is_active = true)
    ∧ (∀ u, u ∈ users → u.username = un → checkpw pw u.password_hash = true →
        u.is_active = true →
        login checkpw users (some (un, pw)) = .success u.id)
    ∧ loginStatus .invalidCredentials = 401 := by
  have hinj : ∀ u1, u1 ∈ users → ∀ u2, u2 ∈ users → u1.username = u2.username →
      u1 = u2 := by
    intro u1 h1 u2 h2 he
    exact List.inj_on_of_nodup_map hnd h1 h2 he
  cases hfind : users.find? (fun u => u.username == un) with
  | none =>
      have hno : ∀ u, u ∈ users → ¬ u.username = un := by
        intro u hu
        have hp := List.find?_eq_none.mp hfind u hu
        simpa using hp
      have hlogin : login checkpw users (some (un, pw)) = .invalidCredentials := by
        simp [login, hfind]
      refine ⟨?_, ?_, rfl⟩
      · rw [hlogin]
        simp only [true_iff]
        rintro ⟨u, hu, hun, -, -⟩
        exact hno u hu hun
      · intro u hu hun _ _
        exact absurd hun (hno u hu)
  | some u0 =>
      have hu0mem : u0 ∈ users := List.mem_of_find?_eq_some hfind
      have hu0un : u0.username = un := by
        have hp := List.find?_some hfind
        simpa using hp
      by_cases hcond : (checkpw pw u0.password_hash && u0.is_active) = true
      · obtain ⟨hpw0, hac0⟩ := Bool.and_eq_true_iff.mp hcond
        have hlogin : login checkpw users (some (un, pw)) = .success u0.id := by
          simp [login, hfind, hcond]
        refine ⟨?_, ?_, rfl⟩
        · rw [hlogin]
          constructor
          · intro h
            exact absurd h (by simp)
          · intro hn
            exact absurd ⟨u0, hu0mem, hu0un, hpw0, hac0⟩ hn
        · intro u hu hun _ _
          have hequ : u = u0 := hinj u hu u0 hu0mem (hun.trans hu0un.symm)
          rw [hequ, hlogin]
      · have hlogin : login checkpw users (some (un, pw)) = .invalidCredentials := by
          have hcond2 : (checkpw pw u0.password_hash && u0.is_active) = false :=
            Bool.eq_false_iff.mpr hcond
          simp [login, hfind, hcond2]
        refine ⟨?_, ?_, rfl⟩
        · rw [hlogin]
          simp only [true_iff]
          rintro ⟨u, hu, hun, hpw, hac⟩
          have hequ : u = u0 := hinj u hu u0 hu0mem (hun.trans hu0un.symm)
          rw [hequ] at hpw hac
          exact hcond (Bool.and_eq_true_iff.mpr ⟨hpw, hac⟩)
        · intro u hu hun hpw hac
          have hequ : u = u0 := hinj u hu u0 hu0mem (hun.trans hu0un.symm)
          rw [hequ] at hpw hac
          exact absurd (Bool.and_eq_true_iff.mpr ⟨hpw, hac⟩) hcond

/-- Witness for C6: one active user whose stored hash the verifier accepts;
login succeeds with that user's identity. -/
theorem C6_login_semantics_witness :
    login (fun pw h => pw == h) [⟨9, "alice", "pw123456", true⟩]
        (some ("alice", "pw123456")) = .success 9 :=
  (C6_login_semantics (fun pw h => pw == h) [⟨9, "alice", "pw123456", true⟩]
      "alice" "pw123456" (by decide)).2.1
    ⟨9, "alice", "pw123456", true⟩ (by decide) (by decide) (by decide) (by decide)

/-- The primary-key lookup commutes with the counter bump: bumping
preserves ids, so the row found after the bump is the row found before,
with its counter incremented when it is the bumped row. -/
theorem find?_bumpView (l : List Fact) (fid t : Nat) :
    (bumpView l t).find? (fun g => g.id == fid)
      = (l.find? (fun g => g.id == fid)).map
          (fun g => if g.id == t then { g with view_count := g.view_count + 1 } else g) := by
  have hcomp : ((fun (g : Fact) => g.id == fid) ∘ fun (g : Fact) =>
      if (g.id == t) = true then { g with view_count := g.view_count + 1 } else g)
      = (fun (g : Fact) => g.id == fid) := by
    funext g
    by_cases h : (g.id == t) = true <;> simp [h, Function.comp]
  rw [bumpView, List.find?_map, hcomp]

/-- Claim C3: GET /facts/random returns 404 (not an error) when no active
fact matches the filter; on a successful pick, the picked fact's view
counter in the committed store is exactly one more than before, and every
other fact row is carried over unchanged. -/
theorem C3_random_pick (st : DbState) (cat : Option String) (r : Nat) :
    (activeFacts st cat = [] →
      randomFact st cat r = (.noFactsFound, st) ∧ randomStatus .noFactsFound = 404)
    ∧ (∀ d st2, randomFact st cat r = (.found d, st2) →
        viewCount st2 d.id = viewCount st d.id + 1
        ∧ (∀ g, g ∈ st.facts → ¬ g.id = d.id → g ∈ st2.facts)
        ∧ randomStatus (.found d) = 200) := by
  refine ⟨?_, ?_⟩
  · intro hempty
    refine ⟨?_, rfl⟩
    simp [randomFact, hempty]
  · intro d st2 heq
    simp only [randomFact] at heq
    cases hget : (activeFacts st cat)[r % (activeFacts st cat).length]? with
    | none => rw [hget] at heq; exact absurd heq (by simp)
    | some fact =>
        rw [hget] at heq
        simp only [Prod.mk.injEq, RandomResult.found.injEq] at heq
        obtain ⟨hd, hst2⟩ := heq
        have hmemActive : fact ∈ activeFacts st cat := List.getElem?_mem hget
        have hmem : fact ∈ st.facts := (List.mem_filter.mp hmemActive).1
        have hdid : d.id = fact.id := by rw [← hd]
        have hsome : (st.facts.find? (fun g => g.id == fact.id)).isSome := by
          rw [List.find?_isSome]
          exact ⟨fact, hmem, by simp⟩
        obtain ⟨f0, hf0⟩ := Option.isSome_iff_exists.mp hsome
        have hf0id := List.find?_some hf0
        refine ⟨?_, ?_, rfl⟩
        · rw [hdid, ← hst2]
          show viewCount { st with facts := bumpView st.facts fact.id } fact.id
              = viewCount st fact.id + 1
          simp only [viewCount]
          rw [find?_bumpView, hf0]
          have hf0id2 : f0.id = fact.id := by simpa using hf0id
          simp [hf0id2]
        · intro g hg hgid
          rw [← hst2]
          show g ∈ bumpView st.facts fact.id
          have hgne : (g.id == fact.id) = false := by
            rw [hdid] at hgid
            simpa using hgid
          exact List.mem_map.mpr ⟨g, hg, by simp [hgne]⟩

/-- Witness for C3: a store with a single active fact; the pick increments
its counter from 0 to 1 and returns 200. -/
theorem C3_random_pick_witness :
    viewCount (randomFact (⟨[mkFact 1 "a" "animals"], []⟩ : DbState) none 0).2
        (mkFact 1 "a" "animals").id
      = viewCount (⟨[mkFact 1 "a" "animals"], []⟩ : DbState)
          (mkFact 1 "a" "animals").id + 1 := by
  have h := (C3_random_pick (⟨[mkFact 1 "a" "animals"], []⟩ : DbState) none 0).2
    { mkFact 1 "a" "animals" with view_count := (mkFact 1 "a" "animals").view_count + 1 }
    (randomFact (⟨[mkFact 1 "a" "animals"], []⟩ : DbState) none 0).2 (by decide)
  exact h.1

/-- POST /favorites never writes the fact table. -/
theorem addFavorite_facts_unchanged (st : DbState) (uid : Nat) (fid : Option Nat)
    (racing : List Favorite) : (addFavorite st uid fid racing).2.facts = st.facts := by
  unfold addFavorite
  repeat' split
  all_goals rfl

/-- DELETE /favorites never writes the fact table. -/
theorem removeFavorite_facts_unchanged (st : DbState) (uid : Nat) (fid : Option Nat) :
    (removeFavorite st uid fid).2.facts = st.facts := by
  unfold removeFavorite
  repeat' split
  all_goals rfl

/-- The fact table after a random pick: unchanged, or bumped at the picked
fact's primary key. -/
theorem randomFact_facts (st : DbState) (cat : Option String) (r : Nat) :
    (randomFact st cat r).2.facts = st.facts
    ∨ ∃ t, (randomFact st cat r).2.facts = bumpView st.facts t := by
  unfold randomFact
  cases hget : (activeFacts st cat)[r % (activeFacts st cat).length]? with
  | none => left; rfl
  | some fact => right; exact ⟨fact.id, rfl⟩

/-- The counter bump changes the looked-up counter of a key by 0 or +1. -/
theorem viewCount_bumpView (st : DbState) (t fid : Nat) :
    viewCount { st with facts := bumpView st.facts t } fid = viewCount st fid
    ∨ viewCount { st with facts := bumpView st.facts t } fid = viewCount st fid + 1 := by
  simp only [viewCount]
  rw [find?_bumpView]
  cases hfind : st.facts.find? (fun g => g.id == fid) with
  | none => left; rfl
  | some f0 =>
      simp only [Option.map_some']
      by_cases hb : (f0.id == t) = true
      · right; rw [if_pos hb]
      · left; rw [if_neg hb]

/-- The counter bump preserves non-negativity of every counter. -/
theorem bumpView_nonneg (l : List Fact) (t : Nat)
    (hpos : ∀ f, f ∈ l → 0 ≤ f.view_count) :
    ∀ f, f ∈ bumpView l t → 0 ≤ f.view_count := by
  intro f hf
  obtain ⟨g, hg, hgf⟩ := List.mem_map.mp hf
  have hgp := hpos g hg
  by_cases hb : (g.id == t) = true
  · rw [← hgf, if_pos hb]
    show 0 ≤ g.view_count + 1
    omega
  · rw [← hgf, if_neg hb]
    exact hgp

/-- Claim C9: the view counter of every fact is non-negative and
monotonically non-decreasing across every operation of the system: seeded
rows start at 0, the only write is the increment of the random pick, and
no operation ever decreases a counter. -/
theorem C9_view_counter (op : Op) (st : DbState) (fid : Nat) :
    viewCount st fid ≤ viewCount (applyOp op st) fid
    ∧ ((∀ f, f ∈ st.facts → 0 ≤ f.view_count) →
        ∀ f, f ∈ (applyOp op st).facts → 0 ≤ f.view_count)
    ∧ (∀ i c k, (mkFact i c k).view_count = 0) := by
  refine ⟨?_, ?_, fun i c k => rfl⟩
  · cases op with
    | pickOp cat r =>
        show viewCount st fid ≤ viewCount (randomFact st cat r).2 fid
        rcases randomFact_facts st cat r with hsame | ⟨t, hbump⟩
        · have : viewCount (randomFact st cat r).2 fid = viewCount st fid := by
            simp only [viewCount, hsame]
          rw [this]
        · have heq : viewCount (randomFact st cat r).2 fid
              = viewCount { st with facts := bumpView st.facts t } fid := by
            simp only [viewCount, hbump]
          rw [heq]
          rcases viewCount_bumpView st t fid with h | h
          · rw [h]
          · rw [h]; omega
    | addFavOp uid mfid racing =>
        show viewCount st fid ≤ viewCount (addFavorite st uid mfid racing).2 fid
        have : viewCount (addFavorite st uid mfid racing).2 fid = viewCount st fid := by
          simp only [viewCount, addFavorite_facts_unchanged]
        rw [this]
    | removeFavOp uid mfid =>
        show viewCount st fid ≤ viewCount (removeFavorite st uid mfid).2 fid
        have : viewCount (removeFavorite st uid mfid).2 fid = viewCount st fid := by
          simp only [viewCount, removeFavorite_facts_unchanged]
        rw [this]
    | seedFactOp i c k =>
        show viewCount st fid
          ≤ viewCount { st with facts := st.facts ++ [mkFact i c k] } fid
        simp only [viewCount, List.find?_append]
        cases hfind : st.facts.find? (fun g => g.id == fid) with
        | none =>
            simp only [Option.none_or]
            cases hnew : [mkFact i c k].find? (fun g => g.id == fid) with
            | none => simp
            | some g =>
                have hg : g ∈ [mkFact i c k] := List.mem_of_find?_eq_some hnew
                have hgm : g = mkFact i c k := by simpa using hg
                simp [hgm, mkFact]
        | some f0 => simp
  · intro hpos f hf
    cases op with
    | pickOp cat r =>
        have hf2 : f ∈ (randomFact st cat r).2.facts := hf
        rcases randomFact_facts st cat r with hsame | ⟨t, hbump⟩
        · rw [hsame] at hf2
          exact hpos f hf2
        · rw [hbump] at hf2
          exact bumpView_nonneg st.facts t hpos f hf2
    | addFavOp uid mfid racing =>
        have hf2 : f ∈ (addFavorite st uid mfid racing).2.facts := hf
        rw [addFavorite_facts_unchanged] at hf2
        exact hpos f hf2
    | removeFavOp uid mfid =>
        have hf2 : f ∈ (removeFavorite st uid mfid).2.facts := hf
        rw [removeFavorite_facts_unchanged] at hf2
        exact hpos f hf2
    | seedFactOp i c k =>
        have hf2 : f ∈ st.facts ++ [mkFact i c k] := hf
        rcases List.mem_append.mp hf2 with hl | hr
        · exact hpos f hl
        · have hfm : f = mkFact i c k := by simpa using hr
          rw [hfm]
          exact le_refl 0

/-- Witness for C9: the pick operation on a single-fact store preserves
non-negativity and does not decrease the counter of fact 1. -/
theorem C9_view_counter_witness :
    viewCount (⟨[mkFact 1 "a" "animals"], []⟩ : DbState) 1
      ≤ viewCount (applyOp (.pickOp none 0) (⟨[mkFact 1 "a" "animals"], []⟩ : DbState)) 1
    ∧ ∀ f, f ∈ (applyOp (.pickOp none 0) (⟨[mkFact 1 "a" "animals"], []⟩ : DbState)).facts →
        0 ≤ f.view_count :=
  ⟨(C9_view_counter (.pickOp none 0) (⟨[mkFact 1 "a" "animals"], []⟩ : DbState) 1).1,
   (C9_view_counter (.pickOp none 0) (⟨[mkFact 1 "a" "animals"], []⟩ : DbState) 1).2.1
     (by decide)⟩

end FactsApi
